import Mathlib

/-!
# Shallow embedding of the claim-protocol contract (src/src/lib.rs and friends)

Mutable NEAR collections (`IterableMap`, `IterableSet`) are modelled as
association lists / lists; `env::block_timestamp()` is an explicit `now : Nat`
argument; `env::predecessor_account_id()` is an explicit caller argument;
`env::attached_deposit()` is an explicit deposit argument (yoctoNEAR as `Nat`;
amounts are `u128` and timestamps `u64` in the source, but none of the modelled
operations exercises wrap-around, so `Nat` is used with no modulus).
`require!` / `assert!` / `env::panic_str` abort the invocation with no durable
state change, which we model as `Except String`.  Outbound cross-contract
promises (transfers, proof verification) are returned as data together with the
continuation arguments that the source attaches via `.then(...)`.
-/

/-- Gas-free model of `serde_json::Value`. -/
inductive Json where
  | null : Json
  | bool (b : Bool) : Json
  | num (n : Int) : Json
  | str (s : String) : Json
  | arr (elems : List Json) : Json
  | obj (fields : List (String × Json)) : Json

/-- Association-list lookup inside a JSON object (`serde_json::Value::get`):
`None` on a non-object value or a missing key. -/
def jsonFind : List (String × Json) → String → Option Json
  | [], _ => none
  | (k, v) :: rest, key => if k = key then some v else jsonFind rest key

def Json.get : Json → String → Option Json
  | .obj fields, key => jsonFind fields key
  | _, _ => none

/-- `serde_json::Value::as_str`. -/
def Json.as_str : Json → Option String
  | .str s => some s
  | _ => none

/-- Lookup in an association-list model of `IterableMap`. -/
def mapLookup {α β : Type} [DecidableEq α] : List (α × β) → α → Option β
  | [], _ => none
  | (k, v) :: rest, key => if k = key then some v else mapLookup rest key

/-- Insert/replace in an association-list model of `IterableMap::insert`. -/
def mapInsert {α β : Type} [DecidableEq α] : List (α × β) → α → β → List (α × β)
  | [], key, v => [(key, v)]
  | (k, w) :: rest, key, v =>
    if k = key then (key, v) :: rest else (k, w) :: mapInsert rest key v

/-- `IterableSet::insert`: append if absent (insertion-order iteration). -/
def setInsert (s : List Nat) (x : Nat) : List Nat :=
  if x ∈ s then s else s ++ [x]

/-- Maximum claims to process in a single batch (lib.rs). -/
def MAX_CLAIMS_PER_BATCH : Nat := 100

/-- Claim expiration period, 90 days in nanoseconds (lib.rs). -/
def CLAIM_EXPIRATION_PERIOD : Nat := 90 * 24 * 60 * 60 * 1000000000

/-- Maximum time allowed between proof generation and submission (lib.rs). -/
def MAX_PROOF_AGE : Nat := 5 * 60 * 1000000000

/-- `str::to_lowercase`, modelled as a per-character case-fold (the inputs of
interest are ASCII, where Rust's Unicode lowercasing and `Char.toLower`
agree). -/
def lowerString (s : String) : String := ⟨s.data.map Char.toLower⟩

/-- Platform and handle combined key (lib.rs `SocialHandle`). -/
structure SocialHandle where
  platform : String
  handle : String
deriving DecidableEq, Repr

/-- `SocialHandle::new`: case-folds both components. -/
def SocialHandle.new (platform handle : String) : SocialHandle :=
  { platform := lowerString platform, handle := lowerString handle }

/-- `SocialHandle::to_string`: naive `platform:handle` concatenation. -/
def SocialHandle.toString (sh : SocialHandle) : String :=
  sh.platform ++ ":" ++ sh.handle

/-- claim.rs `ClaimType`. -/
inductive ClaimType where
  | near : ClaimType
  | fungibleToken (contract_id : String) : ClaimType
  | nonFungibleToken (contract_id : String) (token_id : String) : ClaimType
deriving DecidableEq, Repr

/-- claim.rs `Claim` (`amount` in yoctoNEAR; ignored for NFTs). -/
structure Claim where
  claim_type : ClaimType
  amount : Nat
  tipper : String
  timestamp : Nat
  expires_at : Nat
  claimed : Bool
deriving DecidableEq, Repr

/-- `Claim::new_near` (claim.rs), with `env::block_timestamp()` passed as `now`. -/
def Claim.new_near (tipper : String) (amount : Nat) (now : Nat) : Claim :=
  { claim_type := .near, amount := amount, tipper := tipper, timestamp := now,
    expires_at := now + CLAIM_EXPIRATION_PERIOD, claimed := false }

/-- `Claim::new_ft` (claim.rs). -/
def Claim.new_ft (tipper : String) (contract_id : String) (amount : Nat) (now : Nat) : Claim :=
  { claim_type := .fungibleToken contract_id, amount := amount, tipper := tipper,
    timestamp := now, expires_at := now + CLAIM_EXPIRATION_PERIOD, claimed := false }

/-- `Claim::new_nft` (claim.rs); amount fixed at 0. -/
def Claim.new_nft (tipper : String) (contract_id : String) (token_id : String) (now : Nat) :
    Claim :=
  { claim_type := .nonFungibleToken contract_id token_id, amount := 0, tipper := tipper,
    timestamp := now, expires_at := now + CLAIM_EXPIRATION_PERIOD, claimed := false }

/-- `Claim::is_expired`: `env::block_timestamp() >= self.expires_at`. -/
def Claim.is_expired (c : Claim) (now : Nat) : Bool :=
  decide (c.expires_at ≤ now)

/-- `Claim::token_type`. -/
def Claim.token_type (c : Claim) : String :=
  match c.claim_type with
  | .near => "NEAR"
  | .fungibleToken _ => "FT"
  | .nonFungibleToken _ _ => "NFT"

/-- token.rs `TokenStandard`. -/
inductive TokenStandard where
  | NEAR : TokenStandard
  | NEP141 : TokenStandard
  | NEP171 : TokenStandard
deriving DecidableEq, Repr

/-- token.rs `TokenInfo`. -/
structure TokenInfo where
  standard : TokenStandard
  decimals : Nat
  symbol : String
  chain : String
deriving DecidableEq, Repr

/-- proof.rs `ClaimInfo`.  The `context` field is a JSON string in the source;
`serde_json::from_str::<Value>(&context)` is modelled by storing the parse
result directly: `none` means the string does not parse as JSON. -/
structure ClaimInfo where
  provider : String
  parameters : String
  context : Option Json

/-- proof.rs `CompleteClaimData`. -/
structure CompleteClaimData where
  identifier : String
  owner : String
  epoch : Nat
  timestampS : Nat

/-- proof.rs `SignedClaim`. -/
structure SignedClaim where
  claim : CompleteClaimData
  signatures : List String

/-- proof.rs `ReclaimProof`. -/
structure ReclaimProof where
  claimInfo : ClaimInfo
  signedClaim : SignedClaim

/-- proof.rs `ReclaimProof::is_recent` (`u64::saturating_sub` is `Nat.sub`). -/
def ReclaimProof.is_recent (p : ReclaimProof) (current_time : Nat) : Bool :=
  decide (current_time - p.signedClaim.claim.timestampS * 1000000000 < MAX_PROOF_AGE)

/-- The five structured `EVENT_JSON` notifications of events.rs
(plain `env::log_str` diagnostics are not modelled). -/
inductive Event where
  | accountLinked (platform handle account_id : String) : Event
  | tipTransferred (platform handle : String) (amount : Nat)
      (token_type recipient : String) : Event
  | claimCreated (platform handle : String) (amount : Nat)
      (token_type tipper : String) : Event
  | claimProcessed (platform handle : String) (amount : Nat)
      (token_type claimer : String) : Event
  | tipReclaimed (platform handle : String) (amount : Nat)
      (token_type tipper : String) : Event
deriving DecidableEq, Repr

/-- An outbound asset-transfer promise created by the contract. -/
inductive TransferAction where
  | nearTransfer (recipient : String) (amount : Nat) : TransferAction
  | ftTransfer (contract_id recipient : String) (amount_str : String)
      (memo : Option String) : TransferAction
  | nftTransfer (contract_id recipient : String) (token_id : String)
      (approval : Option Nat) (memo : Option String) : TransferAction
deriving DecidableEq, Repr

/-- Continuation arguments bound onto `on_transfer_complete` at dispatch time. -/
structure Continuation where
  social_handle : SocialHandle
  token_type : String
  claim_id : Nat
  recipient : String
  reclaim_trf : Option Bool
deriving DecidableEq, Repr

/-- lib.rs `Contract` state. -/
structure Contract where
  owner_id : String
  reclaim_contract_id : String
  linked_accounts : List (String × String)
  next_claim_id : Nat
  claims_by_id : List (Nat × Claim)
  handle_claims : List (String × List Nat)
  supported_tokens : List (String × TokenInfo)
  paused : Bool
deriving DecidableEq, Repr

/-- `Contract::new`. -/
def Contract.new (owner_id reclaim_contract_id : String) : Contract :=
  { owner_id := owner_id, reclaim_contract_id := reclaim_contract_id,
    linked_accounts := [], next_claim_id := 1, claims_by_id := [],
    handle_claims := [], supported_tokens := [], paused := false }

/-- Result state of an invocation: a panic (`Except.error`) reverts every
durable mutation of the receipt, so the state is the pre-state. -/
def stateAfter {γ : Type} (c : Contract) (r : Except String (Contract × γ)) : Contract :=
  match r with
  | .ok x => x.1
  | .error _ => c

/-- The context-validation block at the top of `link_account`
(lib.rs lines 137-156): parse failure, missing `extractedParameters`, and
missing `screen_name` all panic; a `screen_name` that is present but is not a
JSON string falls through the inner `if let` with no check at all. -/
def check_proof_context (context : Option Json) (handle : String) : Except String Unit :=
  match context with
  | none => .error "Failed to parse context Json for verification"
  | some context_json =>
    match context_json.get "extractedParameters" with
    | none => .error "needed params not found"
    | some extracted_param =>
      match extracted_param.get "screen_name" with
      | none => .error "screen_name not found in extractedParameters"
      | some screen_name_value =>
        match screen_name_value.as_str with
        | some screen_name =>
          if screen_name = handle then .ok ()
          else .error "Proven handle does not match passed handle"
        | none => .ok ()

/-- lib.rs `link_account`: on success it dispatches external proof verification
and returns the continuation arguments `(social_handle, predecessor)` bound
onto `on_link_account_verified`; no durable state is written. -/
def link_account (c : Contract) (deposit : Nat) (caller : String)
    (platform handle : String) (proof : ReclaimProof) :
    Except String (Contract × SocialHandle × String) :=
  if c.paused then .error "Contract is paused"
  else if deposit < 1 then .error "Requires attached deposit"
  else
    let social_handle := SocialHandle.new platform handle
    if (mapLookup c.linked_accounts social_handle.toString).isSome then
      .error "Handle already linked"
    else
      match check_proof_context proof.claimInfo.context handle with
      | .error e => .error e
      | .ok () => .ok (c, social_handle, caller)

/-- lib.rs `on_link_account_verified`: panics if verification failed, otherwise
unconditionally inserts `social_handle -> account_id` (no already-linked
re-check) and emits account-linked. -/
def on_link_account_verified (c : Contract) (social_handle : SocialHandle)
    (account_id : String) (verification_ok : Bool) :
    Except String (Contract × List Event) :=
  if verification_ok = false then .error "Proof verification failed"
  else
    .ok ({ c with linked_accounts :=
             mapInsert c.linked_accounts social_handle.toString account_id },
         [.accountLinked social_handle.platform social_handle.handle account_id])

/-- lib.rs `store_claim` helper. -/
def store_claim (c : Contract) (social_handle : SocialHandle) (claim : Claim) :
    Contract × Event :=
  let claim_id := c.next_claim_id
  let claim_ids := (mapLookup c.handle_claims social_handle.toString).getD []
  ({ c with next_claim_id := claim_id + 1,
            claims_by_id := mapInsert c.claims_by_id claim_id claim,
            handle_claims := mapInsert c.handle_claims social_handle.toString
              (setInsert claim_ids claim_id) },
   .claimCreated social_handle.platform social_handle.handle claim.amount
     claim.token_type claim.tipper)

/-- lib.rs `tip_near`: for a linked handle, a direct transfer plus
tip-transferred event; otherwise a new pending claim. -/
def tip_near (c : Contract) (now : Nat) (caller : String) (deposit : Nat)
    (platform handle : String) :
    Except String (Contract × Option TransferAction × List Event) :=
  if c.paused then .error "Contract is paused"
  else if deposit = 0 then .error "Requires attached deposit"
  else
    let social_handle := SocialHandle.new platform handle
    match mapLookup c.linked_accounts social_handle.toString with
    | some recipient =>
      .ok (c, some (.nearTransfer recipient deposit),
           [.tipTransferred social_handle.platform social_handle.handle deposit
              "NEAR" recipient])
    | none =>
      let claim := Claim.new_near caller deposit now
      let r := store_claim c social_handle claim
      .ok (r.1, none, [r.2])

/-- The per-claim dispatch arm of the `claim` loop (lib.rs lines 285-350):
one outbound transfer matching the claim's asset variant, with the
continuation `(social_handle, kind, claim_id, account_id, None)`. -/
def dispatchClaim (cl : Claim) (social_handle : SocialHandle) (claim_id : Nat)
    (account_id : String) : TransferAction × Continuation :=
  match cl.claim_type with
  | .near =>
    (.nearTransfer account_id cl.amount,
     { social_handle := social_handle, token_type := "NEAR", claim_id := claim_id,
       recipient := account_id, reclaim_trf := none })
  | .fungibleToken contract_id =>
    (.ftTransfer contract_id account_id (toString cl.amount)
       (some ("Claimed tip from " ++ cl.tipper)),
     { social_handle := social_handle, token_type := "FT", claim_id := claim_id,
       recipient := account_id, reclaim_trf := none })
  | .nonFungibleToken contract_id token_id =>
    (.nftTransfer contract_id account_id token_id none
       (some ("Claimed tip from " ++ cl.tipper)),
     { social_handle := social_handle, token_type := "NFT", claim_id := claim_id,
       recipient := account_id, reclaim_trf := none })

/-- The body of the `for claim_id in claims_ids.iter().take(MAX..)` loop
(lib.rs lines 278-352): an id with no record is skipped; an expired claim hits
`continue` (the removal is commented out in the source, so nothing is pruned);
otherwise a transfer is dispatched. -/
def dispatchLoop (c : Contract) (now : Nat) (social_handle : SocialHandle)
    (account_id : String) : List Nat → List (TransferAction × Continuation)
  | [] => []
  | claim_id :: rest =>
    match mapLookup c.claims_by_id claim_id with
    | none => dispatchLoop c now social_handle account_id rest
    | some cl =>
      if cl.is_expired now then dispatchLoop c now social_handle account_id rest
      else dispatchClaim cl social_handle claim_id account_id ::
        dispatchLoop c now social_handle account_id rest

/-- lib.rs `claim` (the settle entry point): authorizes the caller, then
iterates up to `MAX_CLAIMS_PER_BATCH` pending ids dispatching transfers; the
contract state is returned unchanged — the source loop performs no mutation. -/
def claim (c : Contract) (now : Nat) (caller : String) (platform handle : String) :
    Except String (Contract × List (TransferAction × Continuation)) :=
  if c.paused then .error "Contract is paused"
  else
    let social_handle := SocialHandle.new platform handle
    match mapLookup c.linked_accounts social_handle.toString with
    | none => .error "Account must be linked before claiming."
    | some account_id =>
      if caller ≠ account_id then .error "Only the linked account can claim tips"
      else
        match mapLookup c.handle_claims social_handle.toString with
        | none => .ok (c, [])
        | some claims_ids =>
          if claims_ids.isEmpty then .error "No pending claims to process."
          else
            .ok (c, dispatchLoop c now social_handle account_id
                      (claims_ids.take MAX_CLAIMS_PER_BATCH))

/-- lib.rs `on_transfer_complete`: the single reconciliation callback.  On
failure only a plain log is written; on success for a reclaim it only emits
tip-reclaimed; on success for a settlement it sets `claimed = true` and emits
claim-processed.  No branch touches `handle_claims`. -/
def on_transfer_complete (c : Contract) (social_handle : SocialHandle)
    (token_type : String) (claim_id : Nat) (recipient : String)
    (reclaim_trf : Option Bool) (transfer_ok : Bool) : Contract × List Event :=
  if transfer_ok = false then (c, [])
  else
    match mapLookup c.claims_by_id claim_id with
    | none => (c, [])
    | some cl =>
      match reclaim_trf with
      | some _ =>
        (c, [.tipReclaimed social_handle.platform social_handle.handle cl.amount
               cl.token_type cl.tipper])
      | none =>
        ({ c with claims_by_id :=
             mapInsert c.claims_by_id claim_id { cl with claimed := true } },
         [.claimProcessed social_handle.platform social_handle.handle cl.amount
            token_type recipient])

/-- lib.rs `reclaim_tip`: looks the claim up by id, asserts not claimed,
expired, and caller = tipper, then dispatches one transfer back to the caller
with continuation `Some(true)`; no durable state is written. -/
def reclaim_tip (c : Contract) (now : Nat) (caller : String)
    (platform handle : String) (claim_id : Nat) :
    Except String (Contract × TransferAction × Continuation) :=
  if c.paused then .error "Contract is paused"
  else
    let social_handle := SocialHandle.new platform handle
    match mapLookup c.claims_by_id claim_id with
    | none => .error "No claims found for this handle"
    | some cl =>
      if cl.claimed then .error "tip has been claimed"
      else if (cl.is_expired now) = false then .error "claim is not yet expired"
      else if caller ≠ cl.tipper then .error "Only the original tipper can reclaim funds"
      else
        match cl.claim_type with
        | .near =>
          .ok (c, .nearTransfer caller cl.amount,
               { social_handle := social_handle, token_type := "NEAR",
                 claim_id := claim_id, recipient := caller, reclaim_trf := some true })
        | .fungibleToken contract_id =>
          .ok (c, .ftTransfer contract_id caller (toString cl.amount)
                    (some "Reclaimed expired tip"),
               { social_handle := social_handle, token_type := "FT",
                 claim_id := claim_id, recipient := caller, reclaim_trf := some true })
        | .nonFungibleToken contract_id token_id =>
          .ok (c, .nftTransfer contract_id caller token_id none
                    (some "Reclaimed expired tip"),
               { social_handle := social_handle, token_type := "NFT",
                 claim_id := claim_id, recipient := caller, reclaim_trf := some true })

/-- lib.rs `ft_on_transfer`: routes an inbound fungible-token deposit; `msg`
is stored as its JSON parse result (as with `ClaimInfo.context`).  Returns the
(state, optional forward transfer, events); the `U128(0)` return value (keep
all tokens) is implicit. -/
def ft_on_transfer (c : Contract) (now : Nat) (predecessor : String)
    (sender_id : String) (amount : Nat) (msg : Option Json) :
    Except String (Contract × Option TransferAction × List Event) :=
  if c.paused then .error "Contract is paused"
  else
    match msg with
    | none => .error "Invalid message format"
    | some parsed_msg =>
      match (parsed_msg.get "platform").bind Json.as_str with
      | none => .error "Missing platform field"
      | some platform =>
        match (parsed_msg.get "handle").bind Json.as_str with
        | none => .error "Missing handle field"
        | some handle =>
          let social_handle := SocialHandle.new platform handle
          let ft_contract_id := predecessor
          if (mapLookup c.supported_tokens ft_contract_id).isNone then
            .error "Unsupported token"
          else
            match mapLookup c.linked_accounts social_handle.toString with
            | some recipient =>
              .ok (c, some (.ftTransfer ft_contract_id recipient (toString amount)
                              (some ("Tip from " ++ sender_id))),
                   [.tipTransferred social_handle.platform social_handle.handle
                      amount "FT" recipient])
            | none =>
              let cl := Claim.new_ft sender_id ft_contract_id amount now
              let r := store_claim c social_handle cl
              .ok (r.1, none, [r.2])

/-- lib.rs `nft_on_transfer`: routes an inbound NFT deposit (same message
handling as `ft_on_transfer`; the `false` return value is implicit). -/
def nft_on_transfer (c : Contract) (now : Nat) (predecessor : String)
    (sender_id : String) (token_id : String) (msg : Option Json) :
    Except String (Contract × Option TransferAction × List Event) :=
  if c.paused then .error "Contract is paused"
  else
    match msg with
    | none => .error "Invalid message format"
    | some parsed_msg =>
      match (parsed_msg.get "platform").bind Json.as_str with
      | none => .error "Missing platform field"
      | some platform =>
        match (parsed_msg.get "handle").bind Json.as_str with
        | none => .error "Missing handle field"
        | some handle =>
          let social_handle := SocialHandle.new platform handle
          let nft_contract_id := predecessor
          if (mapLookup c.supported_tokens nft_contract_id).isNone then
            .error "Unsupported token"
          else
            match mapLookup c.linked_accounts social_handle.toString with
            | some recipient =>
              .ok (c, some (.nftTransfer nft_contract_id recipient token_id none
                              (some ("Tip from " ++ sender_id))),
                   [.tipTransferred social_handle.platform social_handle.handle
                      0 "NFT" recipient])
            | none =>
              let cl := Claim.new_nft sender_id nft_contract_id token_id now
              let r := store_claim c social_handle cl
              .ok (r.1, none, [r.2])

/-- lib.rs `get_pending_claims_count`: counts ids in the handle's bucket whose
record exists, is unclaimed and unexpired. -/
def get_pending_claims_count (c : Contract) (now : Nat) (platform handle : String) : Nat :=
  let social_handle := SocialHandle.new platform handle
  match mapLookup c.handle_claims social_handle.toString with
  | some claim_ids =>
    (claim_ids.filter fun claim_id =>
       match mapLookup c.claims_by_id claim_id with
       | some cl => (!cl.claimed) && !(cl.is_expired now)
       | none => false).length
  | none => 0


deriving instance DecidableEq for Except

/-! ## Concrete states used as evidence

A worked execution trace: a native tip of 5 yoctoNEAR from `bob.near` to the
unlinked handle `(x, alice)` at time 0 creates claim id 1; the handle is then
linked to `alice.near`, a settle batch dispatches the transfer, and the
success completion is reconciled. -/

/-- Fresh contract for the worked trace. -/
def st0 : Contract := Contract.new "owner.near" "rc.near"

/-- The handle used throughout the worked trace. -/
def stSH : SocialHandle := SocialHandle.new "x" "alice"

/-- After `tip_near` from bob to the unlinked handle: claim id 1 pending. -/
def st1 : Contract := stateAfter st0 (tip_near st0 0 "bob.near" 5 "x" "alice")

/-- After the verification continuation links the handle to `alice.near`. -/
def st2 : Contract := stateAfter st1 (on_link_account_verified st1 stSH "alice.near" true)

/-- After the settle batch (dispatches the claim-1 transfer; no state change). -/
def st3 : Contract := stateAfter st2 (claim st2 0 "alice.near" "x" "alice")

/-- After the success completion of the settlement transfer for claim 1. -/
def st4 : Contract := (on_transfer_complete st3 stSH "NEAR" 1 "alice.near" none true).1

/-- From `st1` (claim 1 expired, unsettled, unlinked): the state after the
success completion of bob's first reclaim transfer has been reconciled. -/
def reclaimOnce : Contract :=
  (on_transfer_complete st1 stSH "NEAR" 1 "bob.near" (some true) true).1

/-- A state in which the handle `(x, alice)` is already linked to `a.near`. -/
def linkedState : Contract :=
  { Contract.new "owner.near" "rc.near" with linked_accounts := [("x:alice", "a.near")] }

/-- A proof payload whose context does not parse as JSON (never reached by the
already-linked pre-check). -/
def trivialProof : ReclaimProof :=
  { claimInfo := { provider := "x", parameters := "alice", context := none },
    signedClaim := { claim := { identifier := "id", owner := "own", epoch := 1,
                                timestampS := 0 },
                     signatures := [] } }

/-- A proof whose context carries `extractedParameters.screen_name` as a JSON
number, not a string. -/
def proofNonStringScreenName : ReclaimProof :=
  { claimInfo := { provider := "x", parameters := "bob",
                   context := some (.obj [("extractedParameters",
                     .obj [("screen_name", .num 123)])]) },
    signedClaim := { claim := { identifier := "id", owner := "own", epoch := 1,
                                timestampS := 0 },
                     signatures := [] } }

/-- The same proof but with `screen_name` a JSON string different from the
passed handle. -/
def proofStringScreenName : ReclaimProof :=
  { claimInfo := { provider := "x", parameters := "bob",
                   context := some (.obj [("extractedParameters",
                     .obj [("screen_name", .str "alice")])]) },
    signedClaim := { claim := { identifier := "id", owner := "own", epoch := 1,
                                timestampS := 0 },
                     signatures := [] } }

/-! ## Scenario A, parametrically -/

/-- After a native tip of `dep` from `tipper` to the unlinked handle
`(x, alice)` on a fresh contract. -/
def scenarioA1 (o r tipper : String) (now dep : Nat) : Contract :=
  stateAfter (Contract.new o r) (tip_near (Contract.new o r) now tipper dep "x" "alice")

/-- ... after the verification continuation then links the handle to `linker`. -/
def scenarioA2 (o r tipper linker : String) (now dep : Nat) : Contract :=
  stateAfter (scenarioA1 o r tipper now dep)
    (on_link_account_verified (scenarioA1 o r tipper now dep)
      (SocialHandle.new "x" "alice") linker true)

/-- ... after `linker` then invokes the settle entry point. -/
def scenarioA3 (o r tipper linker : String) (now dep : Nat) : Contract :=
  stateAfter (scenarioA2 o r tipper linker now dep)
    (claim (scenarioA2 o r tipper linker now dep) now linker "x" "alice")

/-- ... after the dispatched transfer completes successfully. -/
def scenarioA4 (o r tipper linker : String) (now dep : Nat) : Contract :=
  (on_transfer_complete (scenarioA3 o r tipper linker now dep)
     (SocialHandle.new "x" "alice") "NEAR" 1 linker none true).1

/-- The platform/handle-independent part of a `reclaim_tip` outcome: the
result state, the dispatched transfer, and every continuation component
except the social handle (which feeds only event text). -/
def dispatchOutcome (r : Except String (Contract × TransferAction × Continuation)) :
    Except String (Contract × TransferAction × String × Nat × String × Option Bool) :=
  r.map fun x => (x.1, x.2.1, x.2.2.token_type, x.2.2.claim_id, x.2.2.recipient,
    x.2.2.reclaim_trf)

/-! ## Helper lemmas -/

/-- A panic reverts, so it suffices to check the `.ok` outcomes. -/
theorem stateAfter_linked {γ : Type} (c : Contract) (r : Except String (Contract × γ))
    (h : ∀ x, r = .ok x → x.1.linked_accounts = c.linked_accounts) :
    (stateAfter c r).linked_accounts = c.linked_accounts := by
  cases r with
  | ok x => exact h x rfl
  | error e => rfl

/-- `tip_near` never touches the identity-link map. -/
theorem tip_near_preserves_links (c : Contract) (now : Nat) (caller : String)
    (deposit : Nat) (platform handle : String) :
    (stateAfter c (tip_near c now caller deposit platform handle)).linked_accounts =
      c.linked_accounts := by
  refine stateAfter_linked c _ (fun x hx => ?_)
  simp only [tip_near] at hx
  repeat' split at hx
  all_goals (cases hx <;> rfl)

/-- The settle entry point never touches the identity-link map. -/
theorem claim_preserves_links (c : Contract) (now : Nat) (caller platform handle : String) :
    (stateAfter c (claim c now caller platform handle)).linked_accounts =
      c.linked_accounts := by
  refine stateAfter_linked c _ (fun x hx => ?_)
  simp only [claim] at hx
  repeat' split at hx
  all_goals (cases hx <;> rfl)

/-- `reclaim_tip` never touches the identity-link map. -/
theorem reclaim_tip_preserves_links (c : Contract) (now : Nat)
    (caller platform handle : String) (claim_id : Nat) :
    (stateAfter c (reclaim_tip c now caller platform handle claim_id)).linked_accounts =
      c.linked_accounts := by
  refine stateAfter_linked c _ (fun x hx => ?_)
  simp only [reclaim_tip] at hx
  repeat' split at hx
  all_goals (cases hx <;> rfl)

/-- The reconciliation callback never touches the identity-link map. -/
theorem otc_preserves_links (c : Contract) (sh : SocialHandle) (tt : String)
    (claim_id : Nat) (recipient : String) (rt : Option Bool) (ok : Bool) :
    (on_transfer_complete c sh tt claim_id recipient rt ok).1.linked_accounts =
      c.linked_accounts := by
  simp only [on_transfer_complete]
  repeat' split
  all_goals rfl

/-- The fungible-token intake never touches the identity-link map. -/
theorem ft_preserves_links (c : Contract) (now : Nat) (predecessor sender : String)
    (amount : Nat) (msg : Option Json) :
    (stateAfter c (ft_on_transfer c now predecessor sender amount msg)).linked_accounts =
      c.linked_accounts := by
  refine stateAfter_linked c _ (fun x hx => ?_)
  simp only [ft_on_transfer] at hx
  repeat' split at hx
  all_goals (cases hx <;> rfl)

/-- The NFT intake never touches the identity-link map. -/
theorem nft_preserves_links (c : Contract) (now : Nat) (predecessor sender token_id : String)
    (msg : Option Json) :
    (stateAfter c (nft_on_transfer c now predecessor sender token_id msg)).linked_accounts =
      c.linked_accounts := by
  refine stateAfter_linked c _ (fun x hx => ?_)
  simp only [nft_on_transfer] at hx
  repeat' split at hx
  all_goals (cases hx <;> rfl)

/-- `link_account` rejects a handle that is already linked. -/
theorem link_account_rejects_linked (c : Contract) (deposit : Nat)
    (caller platform handle : String) (proof : ReclaimProof) (a : String)
    (hp : c.paused = false) (hd : 1 ≤ deposit)
    (ha : mapLookup c.linked_accounts (SocialHandle.new platform handle).toString = some a) :
    link_account c deposit caller platform handle proof = .error "Handle already linked" := by
  unfold link_account
  rw [if_neg (by simp [hp]), if_neg (by omega), if_pos (by simp [ha])]

/-- The verification continuation inserts unconditionally: the resulting map
is `mapInsert`, which replaces any existing binding for the key. -/
theorem on_link_overwrites (c : Contract) (sh : SocialHandle) (account_id : String) :
    (stateAfter c (on_link_account_verified c sh account_id true)).linked_accounts =
      mapInsert c.linked_accounts sh.toString account_id := rfl

/-- Splitting at a colon is unambiguous when neither prefix contains one. -/
theorem colon_append_inj (a : List Char) (b : List Char) (c : List Char) (d : List Char)
    (ha : ':' ∉ a) (hc : ':' ∉ c) (h : a ++ ':' :: b = c ++ ':' :: d) :
    a = c ∧ b = d := by
  induction a generalizing c with
  | nil =>
    cases c with
    | nil => simpa using h
    | cons y ys =>
      exfalso
      simp only [List.nil_append, List.cons_append, List.cons.injEq] at h
      exact hc (by rw [← h.1]; exact List.mem_cons_self ':' ys)
  | cons x xs ih =>
    cases c with
    | nil =>
      exfalso
      simp only [List.cons_append, List.nil_append, List.cons.injEq] at h
      exact ha (by rw [← h.1]; exact List.mem_cons_self x xs)
    | cons y ys =>
      simp only [List.cons_append, List.cons.injEq] at h
      have hxs : ':' ∉ xs := fun hm => ha (List.mem_cons_of_mem x hm)
      have hys : ':' ∉ ys := fun hm => hc (List.mem_cons_of_mem y hm)
      obtain ⟨he, htl⟩ := ih ys hxs hys h.2
      exact ⟨by rw [h.1, he], htl⟩

/-- `SocialHandle.toString` is injective on handles whose platform component
is colon-free. -/
theorem social_handle_toString_inj (sh1 sh2 : SocialHandle)
    (h1 : ':' ∉ sh1.platform.data) (h2 : ':' ∉ sh2.platform.data)
    (heq : sh1.toString = sh2.toString) : sh1 = sh2 := by
  have hd : sh1.platform.data ++ ':' :: sh1.handle.data =
      sh2.platform.data ++ ':' :: sh2.handle.data := by
    have := congrArg String.data heq
    simpa [SocialHandle.toString, String.data_append] using this
  obtain ⟨hp, hh⟩ := colon_append_inj _ _ _ _ h1 h2 hd
  cases sh1 with
  | mk p1 hh1 =>
    cases sh2 with
    | mk p2 hh2 =>
      cases p1; cases p2; cases hh1; cases hh2
      simp only at hp hh
      simp [hp, hh]

/-! ## The claims -/

/-- C1: fails on the code — in the reachable state `st4`, claim 1 is settled
(`claimed = true`) yet its id is still a member of its handle's pending set
and the bucket still exists: the success branch of `on_transfer_complete`
sets the flag but performs no pruning and no bucket deletion. -/
theorem settled_claim_remains_in_pending_set :
    (mapLookup st4.claims_by_id 1).map Claim.claimed = some true ∧
    1 ∈ (mapLookup st4.handle_claims stSH.toString).getD [] ∧
    (mapLookup st4.handle_claims stSH.toString).isSome = true := by decide

/-- C2: settling at the expiry instant visits claim 1 and correctly dispatches
no transfer for it, but returns the state unchanged — the removal in the loop
is commented out in the source, so the id is still in the handle's pending set
after the dispatch loop completes. -/
theorem expired_claim_skipped_but_never_pruned :
    claim st2 CLAIM_EXPIRATION_PERIOD "alice.near" "x" "alice" = .ok (st2, []) ∧
    1 ∈ (mapLookup st2.handle_claims stSH.toString).getD [] := by decide

/-- C3: fails on the code — delivering a second success completion for the
already-settled claim 1 emits the claim-processed notification again, because
the callback never re-checks `claimed`. -/
theorem duplicate_success_completion_reemits :
    (mapLookup st4.claims_by_id 1).map Claim.claimed = some true ∧
    (on_transfer_complete st4 stSH "NEAR" 1 "alice.near" none true).2 =
      [.claimProcessed "x" "alice" 5 "NEAR" "alice.near"] := by decide

/-- C4 counterexample: the first reclaim of the expired claim 1 dispatches a
transfer, its success is reconciled through `on_transfer_complete`, and a
second `reclaim_tip` for the same claim id is NOT rejected: it dispatches an
identical second transfer. -/
theorem second_reclaim_dispatches_again_cex :
    reclaim_tip st1 CLAIM_EXPIRATION_PERIOD "bob.near" "x" "alice" 1 =
      .ok (st1, .nearTransfer "bob.near" 5,
           { social_handle := stSH, token_type := "NEAR", claim_id := 1,
             recipient := "bob.near", reclaim_trf := some true }) ∧
    reclaim_tip reclaimOnce CLAIM_EXPIRATION_PERIOD "bob.near" "x" "alice" 1 =
      .ok (st1, .nearTransfer "bob.near" 5,
           { social_handle := stSH, token_type := "NEAR", claim_id := 1,
             recipient := "bob.near", reclaim_trf := some true }) := by decide

/-- C4 (amended): the success reconciliation of a reclaim transfer sets no
terminal flag — it leaves the contract state completely unchanged — so a
second `reclaim_tip` for the same claim id behaves exactly like the first
instead of being rejected. -/
theorem reclaim_completion_leaves_state_unchanged (c : Contract)
    (sh : SocialHandle) (token_type : String) (cb_claim_id : Nat)
    (recipient : String) (b : Bool) (now : Nat) (caller platform handle : String)
    (claim_id : Nat) :
    (on_transfer_complete c sh token_type cb_claim_id recipient (some b) true).1 = c ∧
    reclaim_tip (on_transfer_complete c sh token_type cb_claim_id recipient
        (some b) true).1 now caller platform handle claim_id =
      reclaim_tip c now caller platform handle claim_id := by
  have h : (on_transfer_complete c sh token_type cb_claim_id recipient (some b) true).1 = c := by
    unfold on_transfer_complete
    cases mapLookup c.claims_by_id cb_claim_id <;> simp
  exact ⟨h, by rw [h]⟩

/-- C5 counterexample: with `(x, alice)` already linked to `a.near`, a
successful `on_link_account_verified` for `b.near` silently reassigns the
mapping — the registry is not write-once through the continuation. -/
theorem link_continuation_reassigns_cex :
    mapLookup linkedState.linked_accounts (SocialHandle.new "x" "alice").toString =
      some "a.near" ∧
    (stateAfter linkedState (on_link_account_verified linkedState
        (SocialHandle.new "x" "alice") "b.near" true)).linked_accounts =
      [("x:alice", "b.near")] := by decide

/-- C5 (amended): the registry is write-once at the `link_account` entry point
(an already-linked handle is rejected there) and no settle, reclaim,
reconciliation or deposit-intake operation ever modifies the identity-link
map; but the verification continuation `on_link_account_verified` inserts
unconditionally, so it can reassign an already-linked handle. -/
theorem identity_link_write_once_amended :
    (∀ (c : Contract) (deposit : Nat) (caller platform handle : String)
       (proof : ReclaimProof) (a : String), c.paused = false → 1 ≤ deposit →
       mapLookup c.linked_accounts (SocialHandle.new platform handle).toString = some a →
       link_account c deposit caller platform handle proof =
         .error "Handle already linked") ∧
    (∀ (c : Contract) (now : Nat) (caller : String) (deposit : Nat)
       (platform handle : String),
       (stateAfter c (tip_near c now caller deposit platform handle)).linked_accounts =
         c.linked_accounts) ∧
    (∀ (c : Contract) (now : Nat) (caller platform handle : String),
       (stateAfter c (claim c now caller platform handle)).linked_accounts =
         c.linked_accounts) ∧
    (∀ (c : Contract) (now : Nat) (caller platform handle : String) (claim_id : Nat),
       (stateAfter c (reclaim_tip c now caller platform handle claim_id)).linked_accounts =
         c.linked_accounts) ∧
    (∀ (c : Contract) (sh : SocialHandle) (tt : String) (claim_id : Nat)
       (recipient : String) (rt : Option Bool) (ok : Bool),
       (on_transfer_complete c sh tt claim_id recipient rt ok).1.linked_accounts =
         c.linked_accounts) ∧
    (∀ (c : Contract) (now : Nat) (predecessor sender : String) (amount : Nat)
       (msg : Option Json),
       (stateAfter c (ft_on_transfer c now predecessor sender amount msg)).linked_accounts =
         c.linked_accounts) ∧
    (∀ (c : Contract) (now : Nat) (predecessor sender token_id : String)
       (msg : Option Json),
       (stateAfter c (nft_on_transfer c now predecessor sender token_id msg)).linked_accounts =
         c.linked_accounts) ∧
    (∀ (c : Contract) (sh : SocialHandle) (account_id : String),
       (stateAfter c (on_link_account_verified c sh account_id true)).linked_accounts =
         mapInsert c.linked_accounts sh.toString account_id) :=
  ⟨link_account_rejects_linked, tip_near_preserves_links, claim_preserves_links,
   reclaim_tip_preserves_links, otc_preserves_links, ft_preserves_links,
   nft_preserves_links, on_link_overwrites⟩

/-- C5 witness: the rejection branch of the amended statement at a concrete
already-linked state. -/
theorem identity_link_write_once_amended_witness :
    linkedState.paused = false ∧ 1 ≤ (1 : Nat) ∧
    mapLookup linkedState.linked_accounts (SocialHandle.new "x" "alice").toString =
      some "a.near" ∧
    link_account linkedState 1 "z.near" "x" "alice" trivialProof =
      .error "Handle already linked" :=
  ⟨rfl, by decide, by decide,
   identity_link_write_once_amended.1 linkedState 1 "z.near" "x" "alice" trivialProof
     "a.near" rfl (by decide) (by decide)⟩

/-- C6 counterexample: the `platform:handle` key is not injective — the
distinct case-folded pairs `(a:b, c)` and `(a, b:c)` canonicalize to the same
key string `a:b:c`. -/
theorem handle_key_collision_cex :
    SocialHandle.new "a:b" "c" ≠ SocialHandle.new "a" "b:c" ∧
    (SocialHandle.new "a:b" "c").toString = (SocialHandle.new "a" "b:c").toString := by
  decide

/-- C6 (amended): canonicalization is injective on the pairs whose case-folded
platform contains no colon; two such pairs that are distinct after
case-folding produce distinct key strings. -/
theorem handle_key_injective_colon_free (p1 h1 p2 h2 : String)
    (hc1 : ':' ∉ (SocialHandle.new p1 h1).platform.data)
    (hc2 : ':' ∉ (SocialHandle.new p2 h2).platform.data)
    (hne : SocialHandle.new p1 h1 ≠ SocialHandle.new p2 h2) :
    (SocialHandle.new p1 h1).toString ≠ (SocialHandle.new p2 h2).toString :=
  fun heq => hne (social_handle_toString_inj _ _ hc1 hc2 heq)

/-- C6 witness: two concrete colon-free pairs with distinct keys. -/
theorem handle_key_injective_colon_free_witness :
    (':' ∉ (SocialHandle.new "Twitter" "Alice").platform.data) ∧
    (':' ∉ (SocialHandle.new "Twitter" "Bob").platform.data) ∧
    SocialHandle.new "Twitter" "Alice" ≠ SocialHandle.new "Twitter" "Bob" ∧
    (SocialHandle.new "Twitter" "Alice").toString ≠
      (SocialHandle.new "Twitter" "Bob").toString :=
  ⟨by decide, by decide, by decide,
   handle_key_injective_colon_free "Twitter" "Alice" "Twitter" "Bob"
     (by decide) (by decide) (by decide)⟩

/-- C7: a failure result at the reconciliation callback leaves the entire
contract state (claim records, pending sets, identity links) unchanged, so the
claim stays pending and retryable. -/
theorem failed_transfer_completion_preserves_state (c : Contract)
    (social_handle : SocialHandle) (token_type : String) (claim_id : Nat)
    (recipient : String) (reclaim_trf : Option Bool) :
    (on_transfer_complete c social_handle token_type claim_id recipient
        reclaim_trf false).1 = c := rfl

/-- C8: a native deposit to the unlinked handle `(x, alice)` makes the pending
count 1; after linking, the settle batch dispatches exactly the claim-1
transfer, and once its success completion is reconciled the pending count for
the handle is 0. -/
theorem scenario_a_pending_count (o r tipper linker : String) (now dep : Nat)
    (hdep : 0 < dep) :
    get_pending_claims_count (scenarioA1 o r tipper now dep) now "x" "alice" = 1 ∧
    claim (scenarioA2 o r tipper linker now dep) now linker "x" "alice" =
      .ok (scenarioA2 o r tipper linker now dep,
           [(.nearTransfer linker dep,
             { social_handle := SocialHandle.new "x" "alice", token_type := "NEAR",
               claim_id := 1, recipient := linker, reclaim_trf := none })]) ∧
    get_pending_claims_count (scenarioA4 o r tipper linker now dep) now "x" "alice" = 0 := by
  have hsh : SocialHandle.new "x" "alice" = { platform := "x", handle := "alice" } := rfl
  have hts : (SocialHandle.new "x" "alice").toString = "x:alice" := rfl
  have hts2 : ({ platform := "x", handle := "alice" } : SocialHandle).toString =
      "x:alice" := rfl
  have hexp : (Claim.new_near tipper dep now).is_expired now = false := by
    simp [Claim.is_expired, Claim.new_near, CLAIM_EXPIRATION_PERIOD]
  have hexp2 : ({ claim_type := ClaimType.near, amount := dep, tipper := tipper,
                  timestamp := now, expires_at := now + CLAIM_EXPIRATION_PERIOD,
                  claimed := false } : Claim).is_expired now = false := by
    simp [Claim.is_expired, CLAIM_EXPIRATION_PERIOD]
  have e1 : scenarioA1 o r tipper now dep =
      { owner_id := o, reclaim_contract_id := r, linked_accounts := [], next_claim_id := 2,
        claims_by_id := [(1, Claim.new_near tipper dep now)],
        handle_claims := [("x:alice", [1])], supported_tokens := [], paused := false } := by
    simp [scenarioA1, tip_near, stateAfter, store_claim, Contract.new, hsh, hts, hts2,
      mapLookup, mapInsert, setInsert, hdep.ne']
  have e2 : scenarioA2 o r tipper linker now dep =
      { owner_id := o, reclaim_contract_id := r, linked_accounts := [("x:alice", linker)],
        next_claim_id := 2, claims_by_id := [(1, Claim.new_near tipper dep now)],
        handle_claims := [("x:alice", [1])], supported_tokens := [], paused := false } := by
    simp [scenarioA2, e1, on_link_account_verified, stateAfter, hts, mapInsert]
  have e3 : claim (scenarioA2 o r tipper linker now dep) now linker "x" "alice" =
      .ok (scenarioA2 o r tipper linker now dep,
           [(.nearTransfer linker dep,
             { social_handle := SocialHandle.new "x" "alice", token_type := "NEAR",
               claim_id := 1, recipient := linker, reclaim_trf := none })]) := by
    rw [e2]
    simp [claim, hts, hts2, mapLookup, MAX_CLAIMS_PER_BATCH, dispatchLoop, dispatchClaim,
      hexp, hexp2, Claim.new_near, hsh]
  have e4 : scenarioA4 o r tipper linker now dep =
      { owner_id := o, reclaim_contract_id := r, linked_accounts := [("x:alice", linker)],
        next_claim_id := 2,
        claims_by_id := [(1, { Claim.new_near tipper dep now with claimed := true })],
        handle_claims := [("x:alice", [1])], supported_tokens := [], paused := false } := by
    have e3s : scenarioA3 o r tipper linker now dep =
        scenarioA2 o r tipper linker now dep := by
      simp [scenarioA3, e3, stateAfter]
    simp [scenarioA4, e3s, e2, on_transfer_complete, mapLookup, mapInsert]
  refine ⟨?_, e3, ?_⟩
  · rw [e1]
    simp [get_pending_claims_count, hts, mapLookup, Claim.new_near, Claim.is_expired,
      CLAIM_EXPIRATION_PERIOD]
  · rw [e4]
    simp [get_pending_claims_count, hts, mapLookup]

/-- C8 witness: the scenario at a concrete deposit of 5 at time 0. -/
theorem scenario_a_pending_count_witness :
    0 < 5 ∧
    (get_pending_claims_count (scenarioA1 "owner.near" "rc.near" "bob.near" 0 5)
        0 "x" "alice" = 1 ∧
     claim (scenarioA2 "owner.near" "rc.near" "bob.near" "alice.near" 0 5)
         0 "alice.near" "x" "alice" =
       .ok (scenarioA2 "owner.near" "rc.near" "bob.near" "alice.near" 0 5,
            [(.nearTransfer "alice.near" 5,
              { social_handle := SocialHandle.new "x" "alice", token_type := "NEAR",
                claim_id := 1, recipient := "alice.near", reclaim_trf := none })]) ∧
     get_pending_claims_count (scenarioA4 "owner.near" "rc.near" "bob.near" "alice.near" 0 5)
        0 "x" "alice" = 0) :=
  ⟨by decide,
   scenario_a_pending_count "owner.near" "rc.near" "bob.near" "alice.near" 0 5 (by decide)⟩

/-- C9: the platform/handle arguments of `reclaim_tip` cannot influence its
outcome — from identical states with the same claim id and caller, two
invocations differing only in platform/handle abort on the same precondition
with the same error, or dispatch the identical transfer with identical
continuation data apart from the social handle (which feeds only event
text). -/
theorem reclaim_tip_ignores_platform_handle (c : Contract) (now : Nat) (caller : String)
    (p1 h1 p2 h2 : String) (claim_id : Nat) :
    dispatchOutcome (reclaim_tip c now caller p1 h1 claim_id) =
      dispatchOutcome (reclaim_tip c now caller p2 h2 claim_id) := by
  simp only [reclaim_tip]
  by_cases hp : c.paused = true
  · simp [hp]
  · simp only [hp, if_false]
    cases hcl : mapLookup c.claims_by_id claim_id with
    | none => rfl
    | some cl =>
      by_cases hc : cl.claimed = true
      · simp [hc]
      · simp only [hc, if_false]
        by_cases he : cl.is_expired now = false
        · simp [he]
        · simp only [he, if_false]
          by_cases ht : caller ≠ cl.tipper
          · simp [ht]
          · simp only [ht, if_false]
            cases cl.claim_type <;> rfl

/-- C10: a proof whose context parses as JSON with
`extractedParameters.screen_name` present but non-string (here the number 123)
makes `link_account` skip the handle-equality assertion entirely and proceed
to dispatch verification, while the same context with a mismatching *string*
screen name is rejected. -/
theorem link_account_nonstring_screen_name_skips_check :
    link_account (Contract.new "owner.near" "rc.near") 1 "caller.near" "x" "bob"
        proofNonStringScreenName =
      .ok (Contract.new "owner.near" "rc.near", SocialHandle.new "x" "bob",
           "caller.near") ∧
    link_account (Contract.new "owner.near" "rc.near") 1 "caller.near" "x" "bob"
        proofStringScreenName =
      .error "Proven handle does not match passed handle" := by decide
